import Mathlib

/-!
Verification development for the GPS-Strava-Art-Maker geometry pipeline.

The embedding follows the Python sources:
 - `src/app/svg_gpx_manager.py` (path sampling, placement scaling)
 - `src/gps_strava_art_maker.py` (equirectangular correction, affine
   transform stage, resize/centroid glue).

Tracks are modelled exactly as the gpxpy containers the code iterates over:
a GPX holds a list of tracks, each track a list of segments, each segment a
list of points with real latitude/longitude.  Python floats are idealised as
real numbers; trigonometry uses `Real.cos`/`Real.sin`/`Real.pi`.
-/

namespace StravaArt

noncomputable section

open Real Classical

/-- A gpxpy track point: `(latitude, longitude)` in decimal degrees. -/
structure GPXPoint where
  latitude : ℝ
  longitude : ℝ

/-- A gpxpy track segment is its list of points. -/
abbrev GPXSegment := List GPXPoint

/-- A gpxpy track is its list of segments. -/
abbrev GPXTrack := List GPXSegment

/-- A gpxpy GPX container is its list of tracks. -/
abbrev GPX := List GPXTrack

/-- All points of a GPX container in traversal order: the order of the
nested `for track / for segment / for point` loops of the source. -/
def allPoints (g : GPX) : List GPXPoint :=
  g.flatten.flatten

/-- Apply `f` to every point of every segment of every track, keeping the
container structure.  This is the shape of every in-place point-mutating
loop in the source (each such loop rewrites the fields of each point from
values computed before the loop). -/
def mapPoints (f : GPXPoint → GPXPoint) (g : GPX) : GPX :=
  g.map (List.map (List.map f))

/-- Number of points (`count` accumulated by the summing loops). -/
def pointCount (g : GPX) : ℕ :=
  (allPoints g).length

/-- `lat_sum` accumulated by the summing loops. -/
def latSum (g : GPX) : ℝ :=
  ((allPoints g).map GPXPoint.latitude).sum

/-- `lon_sum` accumulated by the summing loops. -/
def lonSum (g : GPX) : ℝ :=
  ((allPoints g).map GPXPoint.longitude).sum

/-- `lat_sum / count`: the arithmetic-mean centroid latitude. -/
def avgLat (g : GPX) : ℝ :=
  latSum g / pointCount g

/-- `lon_sum / count`: the arithmetic-mean centroid longitude. -/
def avgLon (g : GPX) : ℝ :=
  lonSum g / pointCount g

/-- `math.radians`. -/
def radians (deg : ℝ) : ℝ :=
  deg * Real.pi / 180

/-- The longitude-rescaling loop of `MainWindow.fix_lat_lon_scaling`, given
the snapshot values `center_lon` and `factor` computed before the loop:
`p.longitude = center_lon + (p.longitude - center_lon) * factor`, latitude
untouched. -/
def fix_lat_lon_scaling_core (center_lon factor : ℝ) (g : GPX) : GPX :=
  mapPoints (fun p => ⟨p.latitude, center_lon + (p.longitude - center_lon) * factor⟩) g

/-- `MainWindow.fix_lat_lon_scaling(gpx, reversed)`: compute `avg_lat` and
`center_lon` from the input, `factor = 1 / cos(radians(avg_lat))`, inverted
when `reversed`, and rescale every longitude about `center_lon`.  An empty
point set returns the (copied) input unchanged. -/
def fix_lat_lon_scaling (g : GPX) (reversed : Bool) : GPX :=
  if pointCount g = 0 then g
  else
    let avg_lat := avgLat g
    let factor0 := 1 / Real.cos (radians avg_lat)
    let factor := if reversed then 1 / factor0 else factor0
    fix_lat_lon_scaling_core (avgLon g) factor g

/-- `MainWindow.gpx_transform_and_rotate(gpx)` with the instance fields
`self.rotation` (degrees) and `self.hor_scale` passed explicitly.  The
centroid is computed once from the input; the horizontal stretch loop runs
first, then the rotation loop with `angle_rad = -radians(rotation)`. -/
def gpx_transform_and_rotate (g : GPX) (rotation hor_scale : ℝ) : GPX :=
  if pointCount g = 0 then g
  else
    let center_lat := avgLat g
    let center_lon := avgLon g
    let stretched :=
      mapPoints (fun p => ⟨p.latitude, center_lon + hor_scale * (p.longitude - center_lon)⟩) g
    let angle_rad := -(radians rotation)
    let cos_a := Real.cos angle_rad
    let sin_a := Real.sin angle_rad
    mapPoints (fun p =>
      ⟨center_lat + ((p.longitude - center_lon) * sin_a + (p.latitude - center_lat) * cos_a),
       center_lon + ((p.longitude - center_lon) * cos_a - (p.latitude - center_lat) * sin_a)⟩)
      stretched

/-- `MainWindow.update_final_gpx` as a pure function of the working track
(`gpx_data_2_scaled_translated`) and the Transform State: the final track is
recomputed in full as
`fix_lat_lon_scaling(gpx_transform_and_rotate(working))`. -/
def update_final_gpx (working : GPX) (rotation hor_scale : ℝ) : GPX :=
  fix_lat_lon_scaling (gpx_transform_and_rotate working rotation hor_scale) false

/-- A 2D point of an SVG path segment; the source stores these as complex
numbers and reads `.real` / `.imag`. -/
structure Point2 where
  real : ℝ
  imag : ℝ

/-- The `(x, y) to GPXTrackPoint(-y, x)` mapping used by both
`process_line` and `process_bezier` (screen y grows downward, latitude
grows northward). -/
def toTrackPoint (p : Point2) : GPXPoint :=
  ⟨-p.imag, p.real⟩

/-- `np.linspace(0, 1, n)`: `n` samples.  For `n ≥ 2` the samples are
`i / (n - 1)`; `linspace 1 = [0]` and `linspace 0 = []` exactly as numpy
behaves (Lean division by zero makes the single formula cover `n = 1`). -/
def linspace (n : ℕ) : List ℝ :=
  (List.range n).map (fun i : ℕ => (i : ℝ) / ((n : ℝ) - 1))

/-- `SvgGpxManager.calculate_quadratic_bezier` at one parameter value. -/
def calculate_quadratic_bezier (s c e : Point2) (t : ℝ) : Point2 :=
  ⟨(1 - t) ^ 2 * s.real + 2 * (1 - t) * t * c.real + t ^ 2 * e.real,
   (1 - t) ^ 2 * s.imag + 2 * (1 - t) * t * c.imag + t ^ 2 * e.imag⟩

/-- `SvgGpxManager.calculate_cubic_bezier` at one parameter value. -/
def calculate_cubic_bezier (s c1 c2 e : Point2) (t : ℝ) : Point2 :=
  ⟨(1 - t) ^ 3 * s.real + 3 * (1 - t) ^ 2 * t * c1.real
     + 3 * (1 - t) * t ^ 2 * c2.real + t ^ 3 * e.real,
   (1 - t) ^ 3 * s.imag + 3 * (1 - t) ^ 2 * t * c1.imag
     + 3 * (1 - t) * t ^ 2 * c2.imag + t ^ 3 * e.imag⟩

/-- `SvgGpxManager.process_line`: append the two endpoints, flipping y. -/
def process_line (s e : Point2) : List GPXPoint :=
  [(s.real, s.imag), (e.real, e.imag)].map (fun pt => ⟨-pt.2, pt.1⟩)

/-- `SvgGpxManager.process_bezier` on a `QuadraticBezier` segment with
`interpolation_points = n`. -/
def process_bezier_quadratic (s c e : Point2) (n : ℕ) : List GPXPoint :=
  (linspace n).map (fun t => toTrackPoint (calculate_quadratic_bezier s c e t))

/-- `SvgGpxManager.process_bezier` on a `CubicBezier` segment with
`interpolation_points = n`. -/
def process_bezier_cubic (s c1 c2 e : Point2) (n : ℕ) : List GPXPoint :=
  (linspace n).map (fun t => toTrackPoint (calculate_cubic_bezier s c1 c2 e t))

/-- Python `min` over a non-empty list (the `[]` case never arises where
this is used: the caller errors out first, modelled by `Option`). -/
def listMin : List ℝ → ℝ
  | [] => 0
  | x :: xs => xs.foldl min x

/-- Python `max` over a non-empty list. -/
def listMax : List ℝ → ℝ
  | [] => 0
  | x :: xs => xs.foldl max x

/-- The per-point rescaling of `SvgGpxManager.scale_gpx`, factored out:
offset from the (down-scaled) bounding-box minimum corner, multiplied by
`scale_factor`. -/
def scale_gpx_point (min_lat min_lon scale_factor : ℝ) (p : GPXPoint) : GPXPoint :=
  ⟨min_lat + (p.latitude - min_lat) * scale_factor,
   min_lon + (p.longitude - min_lon) * scale_factor⟩

/-- `min_lat = min(latitudes) * scale_down_factor` of
`SvgGpxManager.scale_gpx` (the source multiplies the min/max, not the
points, by the down-scale factor). -/
def bb_min_lat (g : GPX) : ℝ :=
  listMin ((allPoints g).map GPXPoint.latitude) * 0.000001

/-- `max_lat = max(latitudes) * scale_down_factor` of
`SvgGpxManager.scale_gpx`. -/
def bb_max_lat (g : GPX) : ℝ :=
  listMax ((allPoints g).map GPXPoint.latitude) * 0.000001

/-- `min_lon = min(longitudes) * scale_down_factor` of
`SvgGpxManager.scale_gpx`. -/
def bb_min_lon (g : GPX) : ℝ :=
  listMin ((allPoints g).map GPXPoint.longitude) * 0.000001

/-- `max_lon = max(longitudes) * scale_down_factor` of
`SvgGpxManager.scale_gpx`. -/
def bb_max_lon (g : GPX) : ℝ :=
  listMax ((allPoints g).map GPXPoint.longitude) * 0.000001

/-- `largest_dimension = max(height, width)` of `SvgGpxManager.scale_gpx`:
the two geodesic distances between bounding-box corners sharing a latitude
or a longitude, under the external distance function `d`. -/
def largest_dimension (d : GPXPoint → GPXPoint → ℝ) (g : GPX) : ℝ :=
  max (d ⟨bb_min_lat g, bb_min_lon g⟩ ⟨bb_max_lat g, bb_min_lon g⟩)
    (d ⟨bb_min_lat g, bb_min_lon g⟩ ⟨bb_min_lat g, bb_max_lon g⟩)

/-- `SvgGpxManager.scale_gpx`, parameterized by the external geodesic
distance function `d` (the `geopy` library call) and by
`target_size_meters`.  Two error paths of the source are modelled as
`none`: with no points, `min` of an empty sequence raises `ValueError`;
and when `largest_dimension` is `0.0` (e.g. a single point, or all points
coincident under `d`), Python raises `ZeroDivisionError` at
`scale_factor = target_size_meters / largest_dimension`.  Otherwise the
source builds a fresh GPX holding one track with one segment and appends
each input point, rescaled, in traversal order. -/
def scale_gpx (d : GPXPoint → GPXPoint → ℝ) (target_size_meters : ℝ) (g : GPX) :
    Option GPX :=
  if (allPoints g).isEmpty then none
  else if largest_dimension d g = 0 then none
  else
    let scale_factor := target_size_meters / largest_dimension d g * 0.000001
    some [[(allPoints g).map (scale_gpx_point (bb_min_lat g) (bb_min_lon g) scale_factor)]]

/-- Modelled from the spec: `SvgGpxManager.get_path_center_lat_lon` is not
under `src/` (only its callers are).  Per spec section 4.5, `centroid(track)`
is the arithmetic mean of latitudes and of longitudes and "returns a
sentinel/empty result for an empty track"; the sentinel is modelled as
`none` per coordinate. -/
def get_path_center_lat_lon (g : GPX) : Option ℝ × Option ℝ :=
  if pointCount g = 0 then (none, none)
  else (some (avgLat g), some (avgLon g))

/-- Modelled from the spec: `SvgGpxManager.scale_gpx_around_point` is not
under `src/`.  Per spec section 4.2 (`resizeToLength`), it scales every
point's offset from the given centre point by `scale_factor`. -/
def scale_gpx_around_point (g : GPX) (center_lat center_lon scale_factor : ℝ) : GPX :=
  mapPoints (fun p =>
    ⟨center_lat + (p.latitude - center_lat) * scale_factor,
     center_lon + (p.longitude - center_lon) * scale_factor⟩) g

/-- Python float truthiness as used by the guard
`if not center_lat or not center_lon` in `MainWindow.scale_gpx_path`:
an absent value (`None`) and an exact `0.0` are both falsy. -/
def falsyCoord (x : Option ℝ) : Prop :=
  x = none ∨ x = some 0

/-- `MainWindow.scale_gpx_path`: fetch the centroid and silently return the
input unchanged when either coordinate is falsy, else scale about the
centroid. -/
def scale_gpx_path (g : GPX) (scale_factor : ℝ) : GPX :=
  if falsyCoord (get_path_center_lat_lon g).1 ∨ falsyCoord (get_path_center_lat_lon g).2 then g
  else
    scale_gpx_around_point g ((get_path_center_lat_lon g).1.getD 0)
      ((get_path_center_lat_lon g).2.getD 0) scale_factor

/-- Pairwise polyline length of a point list under distance function `d`:
`0` for fewer than two points. -/
def pairwiseLength (d : GPXPoint → GPXPoint → ℝ) : List GPXPoint → ℝ
  | [] => 0
  | [_] => 0
  | p :: q :: rest => d p q + pairwiseLength d (q :: rest)

/-- Modelled from the spec: `SvgGpxManager.calculate_gpx_length_km` is not
under `src/`.  Per spec section 4.5, `geodesicLength(track)` is the "sum of
pairwise geodesic distances between consecutive points (0 for tracks with
<2 points)", parameterized here by the geodesic distance function `d`. -/
def calculate_gpx_length_km (d : GPXPoint → GPXPoint → ℝ) (g : GPX) : ℝ :=
  pairwiseLength d (allPoints g)

/-- `MainWindow.resize_to_target_path_length` as a pure function of the
working track (the guard on a missing `gpx_data_1_original` is load-state
glue and is outside this model): return the working track unchanged when
`target_length_km ≤ 0` or the current length is `0`, else scale it by
`target_length_km / original_length_km`. -/
def resize_to_target_path_length (d : GPXPoint → GPXPoint → ℝ) (working : GPX)
    (target_length_km : ℝ) : GPX :=
  if target_length_km ≤ 0 then working
  else
    let original_length_km := calculate_gpx_length_km d working
    if original_length_km = 0 then working
    else scale_gpx_path working (target_length_km / original_length_km)

/-! ## Structural lemmas about the track container -/

lemma allPoints_mapPoints (f : GPXPoint → GPXPoint) (g : GPX) :
    allPoints (mapPoints f g) = (allPoints g).map f := by
  simp [allPoints, mapPoints, ← List.map_flatten]

lemma mapPoints_comp (f1 f2 : GPXPoint → GPXPoint) (g : GPX) :
    mapPoints f2 (mapPoints f1 g) = mapPoints (fun p => f2 (f1 p)) g := by
  simp [mapPoints, List.map_map, Function.comp_def]

lemma mapPoints_id_of (f : GPXPoint → GPXPoint) (g : GPX) (h : ∀ p, f p = p) :
    mapPoints f g = g := by
  have hf : f = id := funext h
  subst hf
  simp [mapPoints]

lemma pointCount_mapPoints (f : GPXPoint → GPXPoint) (g : GPX) :
    pointCount (mapPoints f g) = pointCount g := by
  simp [pointCount, allPoints_mapPoints]

lemma allPoints_single (l : List GPXPoint) : allPoints [[l]] = l := by
  simp [allPoints]

/-- Sum of a per-point linear functional over a point list. -/
lemma sum_map_lin (l : List GPXPoint) (a s t : ℝ) :
    (l.map (fun p => a + (p.longitude * s + p.latitude * t))).sum
      = l.length * a + ((l.map GPXPoint.longitude).sum * s
          + (l.map GPXPoint.latitude).sum * t) := by
  induction l with
  | nil => simp
  | cons p ps ih =>
      simp only [List.map_cons, List.sum_cons, ih, List.length_cons]
      push_cast
      ring

/-! ## Lemmas about the equirectangular correction -/

lemma pointCount_fix_core (c f : ℝ) (g : GPX) :
    pointCount (fix_lat_lon_scaling_core c f g) = pointCount g := by
  simp [fix_lat_lon_scaling_core, pointCount_mapPoints]

lemma latList_fix_core (c f : ℝ) (g : GPX) :
    (allPoints (fix_lat_lon_scaling_core c f g)).map GPXPoint.latitude
      = (allPoints g).map GPXPoint.latitude := by
  unfold fix_lat_lon_scaling_core
  rw [allPoints_mapPoints, List.map_map]
  rfl

lemma latSum_fix_core (c f : ℝ) (g : GPX) :
    latSum (fix_lat_lon_scaling_core c f g) = latSum g := by
  unfold latSum
  rw [latList_fix_core]

lemma lonSum_fix_core (c f : ℝ) (g : GPX) :
    lonSum (fix_lat_lon_scaling_core c f g)
      = pointCount g * c + (lonSum g - pointCount g * c) * f := by
  unfold lonSum fix_lat_lon_scaling_core pointCount
  rw [allPoints_mapPoints, List.map_map]
  have hshape : ∀ p ∈ allPoints g,
      (GPXPoint.longitude ∘ fun p : GPXPoint =>
        (⟨p.latitude, c + (p.longitude - c) * f⟩ : GPXPoint)) p
        = (c - c * f) + (p.longitude * f + p.latitude * 0) := by
    intro p _
    simp [Function.comp]
    ring
  rw [List.map_congr_left hshape, sum_map_lin]
  ring

lemma avgLat_fix_core (c f : ℝ) (g : GPX) :
    avgLat (fix_lat_lon_scaling_core c f g) = avgLat g := by
  unfold avgLat
  rw [latSum_fix_core, pointCount_fix_core]

/-- Rescaling longitudes about their own arithmetic mean preserves that
mean. -/
lemma avgLon_fix_core_self (f : ℝ) (g : GPX) :
    avgLon (fix_lat_lon_scaling_core (avgLon g) f g) = avgLon g := by
  by_cases h : pointCount g = 0
  · unfold avgLon
    rw [pointCount_fix_core, h]
    simp
  · have hn : (pointCount g : ℝ) ≠ 0 := Nat.cast_ne_zero.mpr h
    unfold avgLon
    rw [pointCount_fix_core, lonSum_fix_core]
    field_simp

/-- Two longitude rescalings about the same centre whose factors multiply
to one cancel each other. -/
lemma fix_core_cancel (c f1 f2 : ℝ) (h : f1 * f2 = 1) (g : GPX) :
    fix_lat_lon_scaling_core c f2 (fix_lat_lon_scaling_core c f1 g) = g := by
  unfold fix_lat_lon_scaling_core
  rw [mapPoints_comp]
  apply mapPoints_id_of
  intro p
  cases p with
  | mk la lo =>
      simp only [GPXPoint.mk.injEq, true_and]
      have h2 : c + (c + (lo - c) * f1 - c) * f2 = c + (lo - c) * (f1 * f2) := by ring
      rw [h2, h]
      ring

lemma fix_false_eq (g : GPX) (h : pointCount g ≠ 0) :
    fix_lat_lon_scaling g false
      = fix_lat_lon_scaling_core (avgLon g) (1 / Real.cos (radians (avgLat g))) g := by
  unfold fix_lat_lon_scaling
  rw [if_neg h]
  simp

lemma fix_true_eq (g : GPX) (h : pointCount g ≠ 0) :
    fix_lat_lon_scaling g true
      = fix_lat_lon_scaling_core (avgLon g) (1 / (1 / Real.cos (radians (avgLat g)))) g := by
  unfold fix_lat_lon_scaling
  rw [if_neg h]
  simp

lemma pointCount_fix (g : GPX) (b : Bool) :
    pointCount (fix_lat_lon_scaling g b) = pointCount g := by
  by_cases h : pointCount g = 0
  · unfold fix_lat_lon_scaling
    rw [if_pos h]
  · cases b
    · rw [fix_false_eq g h, pointCount_fix_core]
    · rw [fix_true_eq g h, pointCount_fix_core]

lemma avgLat_fix (g : GPX) (b : Bool) :
    avgLat (fix_lat_lon_scaling g b) = avgLat g := by
  by_cases h : pointCount g = 0
  · unfold fix_lat_lon_scaling
    rw [if_pos h]
  · cases b
    · rw [fix_false_eq g h, avgLat_fix_core]
    · rw [fix_true_eq g h, avgLat_fix_core]

lemma avgLon_fix (g : GPX) (b : Bool) :
    avgLon (fix_lat_lon_scaling g b) = avgLon g := by
  by_cases h : pointCount g = 0
  · unfold fix_lat_lon_scaling
    rw [if_pos h]
  · cases b
    · rw [fix_false_eq g h, avgLon_fix_core_self]
    · rw [fix_true_eq g h, avgLon_fix_core_self]

/-- `remove(apply(T)) = T` for the recomputing correction, whenever the
cosine at the mean latitude is nonzero. -/
lemma fix_roundtrip_remove_apply (g : GPX)
    (h : Real.cos (radians (avgLat g)) ≠ 0) :
    fix_lat_lon_scaling (fix_lat_lon_scaling g false) true = g := by
  by_cases hn : pointCount g = 0
  · unfold fix_lat_lon_scaling
    rw [if_pos hn, if_pos hn]
  · have hinner := fix_false_eq g hn
    have hcount : pointCount (fix_lat_lon_scaling g false) ≠ 0 := by
      rw [pointCount_fix]; exact hn
    rw [fix_true_eq _ hcount, avgLat_fix, avgLon_fix, hinner]
    apply fix_core_cancel
    have hf : (1 : ℝ) / Real.cos (radians (avgLat g)) ≠ 0 := one_div_ne_zero h
    field_simp

/-- `apply(remove(T)) = T` for the recomputing correction, whenever the
cosine at the mean latitude is nonzero. -/
lemma fix_roundtrip_apply_remove (g : GPX)
    (h : Real.cos (radians (avgLat g)) ≠ 0) :
    fix_lat_lon_scaling (fix_lat_lon_scaling g true) false = g := by
  by_cases hn : pointCount g = 0
  · unfold fix_lat_lon_scaling
    rw [if_pos hn, if_pos hn]
  · have hinner := fix_true_eq g hn
    have hcount : pointCount (fix_lat_lon_scaling g true) ≠ 0 := by
      rw [pointCount_fix]; exact hn
    rw [fix_false_eq _ hcount, avgLat_fix, avgLon_fix, hinner]
    apply fix_core_cancel
    field_simp

/-! ## Lemmas about the affine transform stage -/

lemma gpx_transform_and_rotate_eq (g : GPX) (rotation hor_scale : ℝ)
    (h : pointCount g ≠ 0) :
    gpx_transform_and_rotate g rotation hor_scale
      = mapPoints (fun p =>
          ⟨avgLat g + ((p.longitude - avgLon g) * Real.sin (-(radians rotation))
              + (p.latitude - avgLat g) * Real.cos (-(radians rotation))),
           avgLon g + ((p.longitude - avgLon g) * Real.cos (-(radians rotation))
              - (p.latitude - avgLat g) * Real.sin (-(radians rotation)))⟩)
        (mapPoints (fun p =>
          ⟨p.latitude, avgLon g + hor_scale * (p.longitude - avgLon g)⟩) g) := by
  unfold gpx_transform_and_rotate
  rw [if_neg h]

/-- `gpx_transform_and_rotate` with rotation `0` and horizontal scale `1`
is the identity, in exact real arithmetic. -/
lemma transform_neutral (g : GPX) : gpx_transform_and_rotate g 0 1 = g := by
  by_cases h : pointCount g = 0
  · unfold gpx_transform_and_rotate
    rw [if_pos h]
  · rw [gpx_transform_and_rotate_eq g 0 1 h]
    have hrad : radians 0 = 0 := by simp [radians]
    rw [hrad, neg_zero, Real.sin_zero, Real.cos_zero]
    rw [mapPoints_id_of _ _ (fun p => by cases p with
      | mk la lo => simp only [GPXPoint.mk.injEq]; constructor <;> ring)]
    exact mapPoints_id_of _ _ (fun p => by cases p with
      | mk la lo => simp only [GPXPoint.mk.injEq]; constructor <;> ring)

lemma pointCount_transform (g : GPX) (rotation hor_scale : ℝ) :
    pointCount (gpx_transform_and_rotate g rotation hor_scale) = pointCount g := by
  by_cases h : pointCount g = 0
  · unfold gpx_transform_and_rotate
    rw [if_pos h]
  · rw [gpx_transform_and_rotate_eq g rotation hor_scale h,
      pointCount_mapPoints, pointCount_mapPoints]

lemma latSum_transform (g : GPX) (rotation hor_scale : ℝ) (h : pointCount g ≠ 0) :
    latSum (gpx_transform_and_rotate g rotation hor_scale) = latSum g := by
  have hn : (pointCount g : ℝ) ≠ 0 := Nat.cast_ne_zero.mpr h
  rw [gpx_transform_and_rotate_eq g rotation hor_scale h]
  unfold latSum
  rw [allPoints_mapPoints, allPoints_mapPoints, List.map_map, List.map_map]
  set s := Real.sin (-(radians rotation)) with hs
  set co := Real.cos (-(radians rotation)) with hco
  have hshape : ∀ p ∈ allPoints g,
      ((GPXPoint.latitude ∘ (fun p : GPXPoint =>
          (⟨avgLat g + ((p.longitude - avgLon g) * s + (p.latitude - avgLat g) * co),
            avgLon g + ((p.longitude - avgLon g) * co
              - (p.latitude - avgLat g) * s)⟩ : GPXPoint))) ∘
        (fun p : GPXPoint =>
          (⟨p.latitude, avgLon g + hor_scale * (p.longitude - avgLon g)⟩ : GPXPoint))) p
        = (avgLat g - avgLon g * (hor_scale * s) - avgLat g * co)
            + (p.longitude * (hor_scale * s) + p.latitude * co) := by
    intro p _
    simp [Function.comp]
    ring
  rw [List.map_congr_left hshape, sum_map_lin]
  unfold avgLat avgLon latSum lonSum pointCount at *
  field_simp

lemma lonSum_transform (g : GPX) (rotation hor_scale : ℝ) (h : pointCount g ≠ 0) :
    lonSum (gpx_transform_and_rotate g rotation hor_scale) = lonSum g := by
  have hn : (pointCount g : ℝ) ≠ 0 := Nat.cast_ne_zero.mpr h
  rw [gpx_transform_and_rotate_eq g rotation hor_scale h]
  unfold lonSum
  rw [allPoints_mapPoints, allPoints_mapPoints, List.map_map, List.map_map]
  set s := Real.sin (-(radians rotation)) with hs
  set co := Real.cos (-(radians rotation)) with hco
  have hshape : ∀ p ∈ allPoints g,
      ((GPXPoint.longitude ∘ (fun p : GPXPoint =>
          (⟨avgLat g + ((p.longitude - avgLon g) * s + (p.latitude - avgLat g) * co),
            avgLon g + ((p.longitude - avgLon g) * co
              - (p.latitude - avgLat g) * s)⟩ : GPXPoint))) ∘
        (fun p : GPXPoint =>
          (⟨p.latitude, avgLon g + hor_scale * (p.longitude - avgLon g)⟩ : GPXPoint))) p
        = (avgLon g - avgLon g * (hor_scale * co) + avgLat g * s)
            + (p.longitude * (hor_scale * co) + p.latitude * (-s)) := by
    intro p _
    simp [Function.comp]
    ring
  rw [List.map_congr_left hshape, sum_map_lin]
  unfold avgLat avgLon latSum lonSum pointCount at *
  field_simp
  ring_nf

/-! ## Lemmas about the path sampler -/

lemma linspace_length (n : ℕ) : (linspace n).length = n := by
  simp [linspace]

lemma linspace_head (m : ℕ) : (linspace (m + 2)).head? = some 0 := by
  unfold linspace
  rw [show List.range (m + 2) = 0 :: (List.range (m + 1)).map Nat.succ from
    List.range_succ_eq_map (m + 1)]
  rw [List.map_cons, List.head?_cons]
  norm_num

lemma linspace_last (m : ℕ) : (linspace (m + 2)).getLast? = some 1 := by
  unfold linspace
  have hr : List.range (m + 2) = List.range (m + 1) ++ [m + 1] := by
    have h0 := List.range_succ (n := m + 1)
    simpa [Nat.succ_eq_add_one] using h0
  rw [hr, List.map_append, List.map_singleton, List.getLast?_concat]
  have hnz : ((m : ℝ) + 1) ≠ 0 := by positivity
  have hv : ((m + 1 : ℕ) : ℝ) / (((m + 2 : ℕ) : ℝ) - 1) = 1 := by
    push_cast
    rw [show (m : ℝ) + 2 - 1 = (m : ℝ) + 1 by ring]
    exact div_self hnz
  rw [hv]

lemma quadratic_at_zero (s c e : Point2) : calculate_quadratic_bezier s c e 0 = s := by
  cases s with
  | mk x y =>
      unfold calculate_quadratic_bezier
      norm_num

lemma quadratic_at_one (s c e : Point2) : calculate_quadratic_bezier s c e 1 = e := by
  cases e with
  | mk x y =>
      unfold calculate_quadratic_bezier
      norm_num

lemma cubic_at_zero (s c1 c2 e : Point2) : calculate_cubic_bezier s c1 c2 e 0 = s := by
  cases s with
  | mk x y =>
      unfold calculate_cubic_bezier
      norm_num

lemma cubic_at_one (s c1 c2 e : Point2) : calculate_cubic_bezier s c1 c2 e 1 = e := by
  cases e with
  | mk x y =>
      unfold calculate_cubic_bezier
      norm_num

/-- At a mean latitude strictly inside the 89th parallels the cosine of the
corresponding angle in radians is positive. -/
lemma cos_radians_pos_of_abs_lt (x : ℝ) (h : |x| < 89) :
    0 < Real.cos (radians x) := by
  have hx := abs_lt.mp h
  have hpi := Real.pi_pos
  refine Real.cos_pos_of_mem_Ioo ⟨?_, ?_⟩
  · unfold radians
    nlinarith [mul_pos hpi (show (0:ℝ) < x + 90 by linarith)]
  · unfold radians
    nlinarith [mul_pos hpi (show (0:ℝ) < 90 - x by linarith)]

/-! ## Claim theorems -/

/-- C4: for every Line segment with 2D endpoints `start` and `end`,
sampling emits exactly 2 points, namely `(latitude, longitude) =
(-start.y, start.x)` followed by `(-end.y, end.x)`. -/
theorem line_sampling_two_flipped_points (s e : Point2) :
    process_line s e = [⟨-s.imag, s.real⟩, ⟨-e.imag, e.real⟩]
      ∧ (process_line s e).length = 2 :=
  ⟨rfl, rfl⟩

/-- C8: `rotateAndStretch(T, 0, 1.0)` (rotation 0 degrees, horizontal
scale 1.0) is the identity transform on every track. -/
theorem rotate_and_stretch_neutral_identity (g : GPX) :
    gpx_transform_and_rotate g 0 1 = g :=
  transform_neutral g

/-- C5: for every non-empty track and every rotation angle and horizontal
stretch factor, the arithmetic-mean centroid of the output of
`gpx_transform_and_rotate` equals that of the input; a zero-point track is
returned unchanged (no error). -/
theorem rotate_and_stretch_centroid_invariant (g : GPX) (rotation hor_scale : ℝ) :
    (pointCount g = 0 → gpx_transform_and_rotate g rotation hor_scale = g)
      ∧ (pointCount g ≠ 0 →
          avgLat (gpx_transform_and_rotate g rotation hor_scale) = avgLat g
            ∧ avgLon (gpx_transform_and_rotate g rotation hor_scale) = avgLon g) := by
  constructor
  · intro h
    unfold gpx_transform_and_rotate
    rw [if_pos h]
  · intro h
    constructor
    · unfold avgLat
      rw [latSum_transform g _ _ h, pointCount_transform]
    · unfold avgLon
      rw [lonSum_transform g _ _ h, pointCount_transform]

/-- Witness for C5 at a concrete two-point track, rotation 90, stretch 2. -/
theorem rotate_and_stretch_centroid_invariant_witness :
    avgLat (gpx_transform_and_rotate [[[⟨1, 2⟩, ⟨3, 4⟩]]] 90 2)
        = avgLat [[[⟨1, 2⟩, ⟨3, 4⟩]]]
      ∧ avgLon (gpx_transform_and_rotate [[[⟨1, 2⟩, ⟨3, 4⟩]]] 90 2)
        = avgLon [[[⟨1, 2⟩, ⟨3, 4⟩]]] :=
  (rotate_and_stretch_centroid_invariant [[[⟨1, 2⟩, ⟨3, 4⟩]]] 90 2).2
    (by simp [pointCount, allPoints])

/-- C9: the correction leaves the latitude list untouched pointwise and
preserves the mean latitude and mean longitude in both directions, and
`remove(apply(T))` is the exact identity in real arithmetic even though
each call recomputes `avg_lat` and `center_lon` from its own input
(provided the cosine at the mean latitude is nonzero, as `1/cos`
presupposes). -/
theorem correction_mean_invariant_and_exact_inverse (g : GPX)
    (h : Real.cos (radians (avgLat g)) ≠ 0) :
    (∀ b : Bool,
        (allPoints (fix_lat_lon_scaling g b)).map GPXPoint.latitude
            = (allPoints g).map GPXPoint.latitude
          ∧ avgLat (fix_lat_lon_scaling g b) = avgLat g
          ∧ avgLon (fix_lat_lon_scaling g b) = avgLon g)
      ∧ fix_lat_lon_scaling (fix_lat_lon_scaling g false) true = g := by
  refine ⟨fun b => ⟨?_, avgLat_fix g b, avgLon_fix g b⟩,
    fix_roundtrip_remove_apply g h⟩
  by_cases hn : pointCount g = 0
  · unfold fix_lat_lon_scaling
    rw [if_pos hn]
  · cases b
    · rw [fix_false_eq g hn, latList_fix_core]
    · rw [fix_true_eq g hn, latList_fix_core]

/-- Witness for C9 at a concrete equatorial two-point track. -/
theorem correction_mean_invariant_and_exact_inverse_witness :
    Real.cos (radians (avgLat ([[[⟨0, 0⟩, ⟨0, 2⟩]]] : GPX))) ≠ 0
      ∧ fix_lat_lon_scaling (fix_lat_lon_scaling [[[⟨0, 0⟩, ⟨0, 2⟩]]] false) true
          = [[[⟨0, 0⟩, ⟨0, 2⟩]]] := by
  have havg : avgLat ([[[⟨0, 0⟩, ⟨0, 2⟩]]] : GPX) = 0 := by
    norm_num [avgLat, latSum, pointCount, allPoints]
  have h : Real.cos (radians (avgLat ([[[⟨0, 0⟩, ⟨0, 2⟩]]] : GPX))) ≠ 0 := by
    rw [havg]
    norm_num [radians]
  exact ⟨h, (correction_mean_invariant_and_exact_inverse _ h).2⟩

/-- C2: for every non-empty track whose average latitude is strictly
within 89 degrees of the equator, applying the correction and then
removing it, with both calls reusing the same reference `avg_lat` and
`center_lon` snapshot, reproduces the track exactly — in particular every
point is reproduced within 1e-9 degrees. -/
theorem correction_roundtrip_shared_snapshot (T : GPX)
    (h1 : allPoints T ≠ []) (h2 : |avgLat T| < 89) :
    fix_lat_lon_scaling_core (avgLon T) (1 / (1 / Real.cos (radians (avgLat T))))
        (fix_lat_lon_scaling_core (avgLon T) (1 / Real.cos (radians (avgLat T))) T) = T
      ∧ List.Forall₂ (fun p q : GPXPoint =>
            |p.latitude - q.latitude| ≤ 1e-9 ∧ |p.longitude - q.longitude| ≤ 1e-9)
          (allPoints (fix_lat_lon_scaling_core (avgLon T)
            (1 / (1 / Real.cos (radians (avgLat T))))
            (fix_lat_lon_scaling_core (avgLon T)
              (1 / Real.cos (radians (avgLat T))) T)))
          (allPoints T) := by
  have hcos : Real.cos (radians (avgLat T)) ≠ 0 :=
    ne_of_gt (cos_radians_pos_of_abs_lt _ h2)
  have hmul : (1 / Real.cos (radians (avgLat T)))
      * (1 / (1 / Real.cos (radians (avgLat T)))) = 1 := by
    field_simp
  have heq := fix_core_cancel (avgLon T) _ _ hmul T
  refine ⟨heq, ?_⟩
  rw [heq]
  rw [List.forall₂_same]
  intro p _
  constructor <;> norm_num

/-- Witness for C2 at a concrete equatorial two-point track. -/
theorem correction_roundtrip_shared_snapshot_witness :
    (allPoints ([[[⟨0, 0⟩, ⟨0, 2⟩], [⟨0, 4⟩]]] : GPX) ≠ []
        ∧ |avgLat ([[[⟨0, 0⟩, ⟨0, 2⟩], [⟨0, 4⟩]]] : GPX)| < 89)
      ∧ fix_lat_lon_scaling_core (avgLon [[[⟨0, 0⟩, ⟨0, 2⟩], [⟨0, 4⟩]]])
          (1 / (1 / Real.cos (radians (avgLat [[[⟨0, 0⟩, ⟨0, 2⟩], [⟨0, 4⟩]]]))))
          (fix_lat_lon_scaling_core (avgLon [[[⟨0, 0⟩, ⟨0, 2⟩], [⟨0, 4⟩]]])
            (1 / Real.cos (radians (avgLat [[[⟨0, 0⟩, ⟨0, 2⟩], [⟨0, 4⟩]]])))
            [[[⟨0, 0⟩, ⟨0, 2⟩], [⟨0, 4⟩]]])
        = [[[⟨0, 0⟩, ⟨0, 2⟩], [⟨0, 4⟩]]] := by
  have h1 : allPoints ([[[⟨0, 0⟩, ⟨0, 2⟩], [⟨0, 4⟩]]] : GPX) ≠ [] := by
    simp [allPoints]
  have h2 : |avgLat ([[[⟨0, 0⟩, ⟨0, 2⟩], [⟨0, 4⟩]]] : GPX)| < 89 := by
    norm_num [avgLat, latSum, pointCount, allPoints]
  exact ⟨⟨h1, h2⟩, (correction_roundtrip_shared_snapshot _ h1 h2).1⟩

/-- C6: for every track whose arithmetic-mean centroid latitude or
longitude is exactly `0.0`, the centroid-relative scale operation treats
the centroid as missing (Python float truthiness) and silently returns its
input unchanged, for every scale factor. -/
theorem scale_gpx_path_zero_centroid_silent_noop (g : GPX) (scale_factor : ℝ)
    (h : avgLat g = 0 ∨ avgLon g = 0) :
    scale_gpx_path g scale_factor = g := by
  unfold scale_gpx_path
  by_cases hn : pointCount g = 0
  · have hc : get_path_center_lat_lon g = (none, none) := by
      unfold get_path_center_lat_lon
      rw [if_pos hn]
    rw [hc]
    exact if_pos (Or.inl (Or.inl rfl))
  · have hc : get_path_center_lat_lon g = (some (avgLat g), some (avgLon g)) := by
      unfold get_path_center_lat_lon
      rw [if_neg hn]
    rw [hc]
    rcases h with h | h
    · exact if_pos (Or.inl (Or.inr (by rw [h])))
    · exact if_pos (Or.inr (Or.inr (by rw [h])))

/-- Witness for C6 at a track straddling the equator (mean latitude 0). -/
theorem scale_gpx_path_zero_centroid_silent_noop_witness :
    (avgLat ([[[⟨1, 5⟩, ⟨-1, 5⟩]]] : GPX) = 0
        ∨ avgLon ([[[⟨1, 5⟩, ⟨-1, 5⟩]]] : GPX) = 0)
      ∧ scale_gpx_path [[[⟨1, 5⟩, ⟨-1, 5⟩]]] 2 = [[[⟨1, 5⟩, ⟨-1, 5⟩]]] := by
  have h : avgLat ([[[⟨1, 5⟩, ⟨-1, 5⟩]]] : GPX) = 0
      ∨ avgLon ([[[⟨1, 5⟩, ⟨-1, 5⟩]]] : GPX) = 0 := by
    left
    norm_num [avgLat, latSum, pointCount, allPoints]
  exact ⟨h, scale_gpx_path_zero_centroid_silent_noop _ 2 h⟩

/-- C7: for every track and target length, if the target is nonpositive or
the track's current (geodesic) length is zero, `resize_to_target_path_length`
returns the input unchanged and raises no error, whatever the geodesic
distance function is. -/
theorem resize_to_target_path_length_degenerate_noop
    (d : GPXPoint → GPXPoint → ℝ) (working : GPX) (target_length_km : ℝ)
    (h : target_length_km ≤ 0 ∨ calculate_gpx_length_km d working = 0) :
    resize_to_target_path_length d working target_length_km = working := by
  unfold resize_to_target_path_length
  rcases h with h | h
  · rw [if_pos h]
  · by_cases hL : target_length_km ≤ 0
    · rw [if_pos hL]
    · rw [if_neg hL]
      show (if calculate_gpx_length_km d working = 0 then working else _) = working
      rw [if_pos h]

/-- Witness for C7: a zero target length is a no-op under the constant-one
distance function. -/
theorem resize_to_target_path_length_degenerate_noop_witness :
    ((0 : ℝ) ≤ 0 ∨ calculate_gpx_length_km (fun _ _ => 1) [[[⟨1, 2⟩, ⟨3, 4⟩]]] = 0)
      ∧ resize_to_target_path_length (fun _ _ => 1) [[[⟨1, 2⟩, ⟨3, 4⟩]]] 0
          = [[[⟨1, 2⟩, ⟨3, 4⟩]]] :=
  ⟨Or.inl le_rfl,
    resize_to_target_path_length_degenerate_noop _ _ 0 (Or.inl le_rfl)⟩

/-- C10 counterexample: the placement step does not always return a
container.  On an input with no points (here one track with no segments)
the source raises `ValueError` on `min` of an empty sequence; and on a
single-point input, where both bounding-box corner distances are `0.0`
(as any distance function vanishing on coincident points gives), the
source raises `ZeroDivisionError` at
`target_size_meters / largest_dimension`.  Both are modelled as `none`. -/
theorem scale_gpx_empty_counterexample :
    scale_gpx (fun _ _ => 1) 100 ([[]] : GPX) = none
      ∧ scale_gpx (fun _ _ => 0) 100 ([[[⟨1, 2⟩]]] : GPX) = none := by
  constructor
  · unfold scale_gpx
    simp [allPoints]
  · unfold scale_gpx
    simp [allPoints, largest_dimension]

/-- C10 (amended): on every input with at least one point and a nonzero
bounding-box largest dimension (with no points the source raises
`ValueError` on `min` of an empty sequence, and with a zero largest
dimension it raises `ZeroDivisionError`; both modelled as `none`), the
placement/scaling step returns a container with exactly one track holding
exactly one segment, whose points are the images of all input points in
traversal order. -/
theorem scale_gpx_flattens_structure (d : GPXPoint → GPXPoint → ℝ)
    (target_size_meters : ℝ) (g : GPX) (h : allPoints g ≠ [])
    (hdim : largest_dimension d g ≠ 0) :
    (scale_gpx d target_size_meters g).isSome
      ∧ ∀ out : GPX, scale_gpx d target_size_meters g = some out →
          out.length = 1 ∧ (∀ t ∈ out, t.length = 1)
            ∧ ∃ f : GPXPoint → GPXPoint, allPoints out = (allPoints g).map f := by
  have hne : (allPoints g).isEmpty = false := by
    simpa [List.isEmpty_iff] using h
  unfold scale_gpx
  rw [hne]
  simp only [Bool.false_eq_true, if_false]
  rw [if_neg hdim]
  simp only [Option.isSome_some, true_and]
  intro out hout
  rw [Option.some.injEq] at hout
  subst hout
  refine ⟨rfl, ?_, ?_⟩
  · intro t ht
    rw [List.mem_singleton] at ht
    simp [ht]
  · exact ⟨_, allPoints_single _⟩

/-- Witness for C10 on a multi-track, multi-segment input with a
constant-one distance function (so the largest dimension is 1, nonzero). -/
theorem scale_gpx_flattens_structure_witness :
    (allPoints ([[[⟨0, 0⟩], [⟨1, 1⟩]], [[⟨2, 2⟩]]] : GPX) ≠ []
        ∧ largest_dimension (fun _ _ => 1) [[[⟨0, 0⟩], [⟨1, 1⟩]], [[⟨2, 2⟩]]] ≠ 0)
      ∧ (scale_gpx (fun _ _ => 1) 100 [[[⟨0, 0⟩], [⟨1, 1⟩]], [[⟨2, 2⟩]]]).isSome
      ∧ ∀ out : GPX,
          scale_gpx (fun _ _ => 1) 100 [[[⟨0, 0⟩], [⟨1, 1⟩]], [[⟨2, 2⟩]]] = some out →
            out.length = 1 ∧ (∀ t ∈ out, t.length = 1)
              ∧ ∃ f : GPXPoint → GPXPoint,
                  allPoints out
                    = (allPoints ([[[⟨0, 0⟩], [⟨1, 1⟩]], [[⟨2, 2⟩]]] : GPX)).map f := by
  have h : allPoints ([[[⟨0, 0⟩], [⟨1, 1⟩]], [[⟨2, 2⟩]]] : GPX) ≠ [] := by
    simp [allPoints]
  have hdim : largest_dimension (fun _ _ => 1) [[[⟨0, 0⟩], [⟨1, 1⟩]], [[⟨2, 2⟩]]] ≠ 0 := by
    norm_num [largest_dimension]
  obtain ⟨h1, h2⟩ := scale_gpx_flattens_structure (fun _ _ => 1) 100 _ h hdim
  exact ⟨⟨h, hdim⟩, h1, h2⟩

/-- C3 counterexample: with interpolation point count `N = 1` (numpy's
`linspace(0, 1, 1) = [0.0]`), sampling a quadratic segment emits a single
point at `t = 0` only; no emitted point equals the mapped end point, so the
points are not evenly spaced over `[0,1]` inclusive and no sample at
`t = 1` reproduces the segment end. -/
theorem bezier_sampling_single_point_counterexample :
    process_bezier_quadratic ⟨0, 0⟩ ⟨0, 0⟩ ⟨2, 0⟩ 1 = [toTrackPoint ⟨0, 0⟩]
      ∧ toTrackPoint (⟨2, 0⟩ : Point2)
          ∉ process_bezier_quadratic ⟨0, 0⟩ ⟨0, 0⟩ ⟨2, 0⟩ 1 := by
  have he : process_bezier_quadratic ⟨0, 0⟩ ⟨0, 0⟩ ⟨2, 0⟩ 1
      = [toTrackPoint ⟨0, 0⟩] := by
    unfold process_bezier_quadratic linspace
    rw [show List.range 1 = [0] from rfl]
    simp only [List.map_cons, List.map_nil, List.cons.injEq, and_true]
    norm_num [quadratic_at_zero]
  refine ⟨he, ?_⟩
  rw [he]
  simp only [List.mem_singleton, toTrackPoint]
  intro hcontra
  rw [GPXPoint.mk.injEq] at hcontra
  exact absurd hcontra.2 (by norm_num)

/-- C3 (amended): for every quadratic or cubic segment and every
interpolation point count `N ≥ 2`, sampling emits exactly `N` points at the
parameter values `i/(N-1)` (evenly spaced over `[0,1]` inclusive) computed
by the standard Bézier blending formulas, and the points at `t = 0` and
`t = 1` equal the segment's mapped start and end points; with `N = 1` a
single point at `t = 0` is emitted. -/
theorem bezier_sampling_points (s c c1 c2 e : Point2) (n : ℕ) (hN : 2 ≤ n) :
    ((process_bezier_quadratic s c e n).length = n
      ∧ process_bezier_quadratic s c e n
          = (List.range n).map (fun i : ℕ =>
              toTrackPoint (calculate_quadratic_bezier s c e ((i : ℝ) / ((n : ℝ) - 1))))
      ∧ (process_bezier_quadratic s c e n).head? = some (toTrackPoint s)
      ∧ (process_bezier_quadratic s c e n).getLast? = some (toTrackPoint e))
    ∧ ((process_bezier_cubic s c1 c2 e n).length = n
      ∧ process_bezier_cubic s c1 c2 e n
          = (List.range n).map (fun i : ℕ =>
              toTrackPoint (calculate_cubic_bezier s c1 c2 e ((i : ℝ) / ((n : ℝ) - 1))))
      ∧ (process_bezier_cubic s c1 c2 e n).head? = some (toTrackPoint s)
      ∧ (process_bezier_cubic s c1 c2 e n).getLast? = some (toTrackPoint e)) := by
  obtain ⟨m, rfl⟩ : ∃ m, n = m + 2 := ⟨n - 2, by omega⟩
  refine ⟨⟨?_, ?_, ?_, ?_⟩, ?_, ?_, ?_, ?_⟩
  · simp [process_bezier_quadratic, linspace_length]
  · unfold process_bezier_quadratic linspace
    rw [List.map_map]
    rfl
  · unfold process_bezier_quadratic
    rw [List.head?_map, linspace_head]
    simp [quadratic_at_zero]
  · unfold process_bezier_quadratic
    rw [List.getLast?_map, linspace_last]
    simp [quadratic_at_one]
  · simp [process_bezier_cubic, linspace_length]
  · unfold process_bezier_cubic linspace
    rw [List.map_map]
    rfl
  · unfold process_bezier_cubic
    rw [List.head?_map, linspace_head]
    simp [cubic_at_zero]
  · unfold process_bezier_cubic
    rw [List.getLast?_map, linspace_last]
    simp [cubic_at_one]

/-- Witness for the amended C3 at `N = 3` (the source default) on concrete
segments. -/
theorem bezier_sampling_points_witness :
    (2 ≤ 3)
      ∧ (process_bezier_quadratic ⟨0, 0⟩ ⟨1, 1⟩ ⟨2, 0⟩ 3).length = 3
      ∧ (process_bezier_quadratic ⟨0, 0⟩ ⟨1, 1⟩ ⟨2, 0⟩ 3).head?
          = some (toTrackPoint ⟨0, 0⟩)
      ∧ (process_bezier_quadratic ⟨0, 0⟩ ⟨1, 1⟩ ⟨2, 0⟩ 3).getLast?
          = some (toTrackPoint ⟨2, 0⟩)
      ∧ (process_bezier_cubic ⟨0, 0⟩ ⟨1, 1⟩ ⟨2, 1⟩ ⟨3, 0⟩ 3).length = 3
      ∧ (process_bezier_cubic ⟨0, 0⟩ ⟨1, 1⟩ ⟨2, 1⟩ ⟨3, 0⟩ 3).head?
          = some (toTrackPoint ⟨0, 0⟩)
      ∧ (process_bezier_cubic ⟨0, 0⟩ ⟨1, 1⟩ ⟨2, 1⟩ ⟨3, 0⟩ 3).getLast?
          = some (toTrackPoint ⟨3, 0⟩) := by
  have h := bezier_sampling_points ⟨0, 0⟩ ⟨1, 1⟩ ⟨1, 1⟩ ⟨2, 1⟩ ⟨2, 0⟩ 3 (by norm_num)
  have h2 := bezier_sampling_points ⟨0, 0⟩ ⟨1, 1⟩ ⟨1, 1⟩ ⟨2, 1⟩ ⟨3, 0⟩ 3 (by norm_num)
  exact ⟨by norm_num, h.1.1, h.1.2.2.1, h.1.2.2.2,
    h2.2.1, h2.2.2.2.1, h2.2.2.2.2⟩

/-- C1 counterexample: the spec formula
`final = Correction(Affine(CorrectionInverse(working)))` fails on the code.
With neutral Transform State (rotation 0, stretch 1) and the working track
`[(60, 0), (60, 2)]` (mean latitude 60 degrees, so `cos = 1/2` exactly),
the code computes `final = Correction(Affine(working))`, which differs from
the spec formula's value: the code's `update_final_gpx` stretches the
longitudes to `-1` and `3`, while the spec formula returns the working
track unchanged. -/
theorem update_final_gpx_spec_formula_counterexample :
    update_final_gpx [[[⟨60, 0⟩, ⟨60, 2⟩]]] 0 1
      ≠ fix_lat_lon_scaling (gpx_transform_and_rotate
          (fix_lat_lon_scaling [[[⟨60, 0⟩, ⟨60, 2⟩]]] true) 0 1) false := by
  have havgLat : avgLat ([[[⟨60, 0⟩, ⟨60, 2⟩]]] : GPX) = 60 := by
    norm_num [avgLat, latSum, pointCount, allPoints]
  have havgLon : avgLon ([[[⟨60, 0⟩, ⟨60, 2⟩]]] : GPX) = 1 := by
    norm_num [avgLon, lonSum, pointCount, allPoints]
  have hcos60 : Real.cos (radians 60) = 1 / 2 := by
    rw [show radians 60 = Real.pi / 3 by unfold radians; ring]
    exact Real.cos_pi_div_three
  have hcos : Real.cos (radians (avgLat ([[[⟨60, 0⟩, ⟨60, 2⟩]]] : GPX))) ≠ 0 := by
    rw [havgLat, hcos60]
    norm_num
  have hrt : fix_lat_lon_scaling (fix_lat_lon_scaling [[[⟨60, 0⟩, ⟨60, 2⟩]]] true) false
      = [[[⟨60, 0⟩, ⟨60, 2⟩]]] := fix_roundtrip_apply_remove _ hcos
  have hfix : fix_lat_lon_scaling [[[⟨60, 0⟩, ⟨60, 2⟩]]] false
      = [[[⟨60, -1⟩, ⟨60, 3⟩]]] := by
    rw [fix_false_eq _ (by simp [pointCount, allPoints]), havgLat, havgLon, hcos60]
    unfold fix_lat_lon_scaling_core mapPoints
    norm_num
  unfold update_final_gpx
  rw [transform_neutral, transform_neutral, hrt, hfix]
  intro hcontra
  simp only [List.cons.injEq, GPXPoint.mk.injEq, and_true] at hcontra
  exact absurd hcontra.1.2 (by norm_num)

/-- C1 (amended): the working snapshot is already stored in the
correction-removed frame (the reverse correction is applied once at GPX
load time, not on every recompute), so the pipeline invariant holds with
the working track read in the corrected frame: for every working track
whose mean-latitude cosine is nonzero, the final track equals
`Correction(Affine(CorrectionInverse(Correction(working))))`, and it is
recomputed in full from the working track and the Transform State alone. -/
theorem update_final_gpx_corrected_frame (working : GPX) (rotation hor_scale : ℝ)
    (h : Real.cos (radians (avgLat working)) ≠ 0) :
    update_final_gpx working rotation hor_scale
      = fix_lat_lon_scaling (gpx_transform_and_rotate
          (fix_lat_lon_scaling (fix_lat_lon_scaling working false) true)
          rotation hor_scale) false := by
  unfold update_final_gpx
  rw [fix_roundtrip_remove_apply working h]

/-- Witness for the amended C1 at a concrete track with rotation 45 and
stretch 2. -/
theorem update_final_gpx_corrected_frame_witness :
    Real.cos (radians (avgLat ([[[⟨0, 0⟩, ⟨0, 2⟩]]] : GPX))) ≠ 0
      ∧ update_final_gpx [[[⟨0, 0⟩, ⟨0, 2⟩]]] 45 2
        = fix_lat_lon_scaling (gpx_transform_and_rotate
            (fix_lat_lon_scaling (fix_lat_lon_scaling [[[⟨0, 0⟩, ⟨0, 2⟩]]] false) true)
            45 2) false := by
  have havg : avgLat ([[[⟨0, 0⟩, ⟨0, 2⟩]]] : GPX) = 0 := by
    norm_num [avgLat, latSum, pointCount, allPoints]
  have h : Real.cos (radians (avgLat ([[[⟨0, 0⟩, ⟨0, 2⟩]]] : GPX))) ≠ 0 := by
    rw [havg]
    norm_num [radians]
  exact ⟨h, update_final_gpx_corrected_frame _ 45 2 h⟩

end

end StravaArt
